import Mathlib

/-!
Verification development for the Kaleidoscope front end (Go sources:
`lexer` package, `parser` package with `parser.go`, `ast.go`, the codegen
helper file, and `types.go`).

The embedding is shallow: the byte-oriented tokenizer is a function over
the list of remaining input bytes, the recursive-descent parser is a
fueled function over token streams, and the code generator threads an
explicit state (module functions, basic blocks, the two-tier variable
binding table) through the AST walk.  Fuel arguments are only a
termination device for Lean; every run appearing in a theorem terminates
with fuel to spare.  `float64` payloads are modelled as exact rationals
(no property proved here depends on floating-point rounding).
-/

namespace Kaleidoscope

/-! ## Lexer (Go package `lexer`)

`bufio.Reader` is modelled as the list of remaining bytes.  The `Lexer`
struct fields `String` and `NumVal` are `str` and `numVal`; `CurrTok` is
the value returned by `parseToken` (Go's `NextToken` merely stores it).
A `none` result of a scanning helper models the corresponding Go path:
either a returned `error` (callers turn it into `TokEOF`) or, for the
identifier/number/string scanners, the runtime panic of indexing an empty
`Peek` result.  -/

def TokIdentifier : Int := -1
def TokNumVal : Int := -2
def TokStringConst : Int := -3
def TokString : Int := -4
def TokDouble : Int := -5
def TokVoid : Int := -6
def TokDef : Int := -10
def TokExtern : Int := -11
def TokSet : Int := -12
def TokReturn : Int := -13
def TokConst : Int := -14
def TokIf : Int := -15
def TokElse : Int := -16
def TokWhile : Int := -27
def TokEOF : Int := -99

/-- Remaining bytes of the `bufio.Reader`. -/
abbrev Reader := List UInt8

/-- Go `unicode.IsSpace` restricted to `rune(b)` for a byte `b`:
space, tab, newline, vertical tab, form feed, carriage return,
next line (U+0085) and no-break space (U+00A0). -/
def isSpace (b : UInt8) : Bool :=
  b == 9 || b == 10 || b == 11 || b == 12 || b == 13 || b == 32 || b == 133 || b == 160

/-- Go `unicode.IsDigit` on `rune(b)`: only the ASCII digits below 256. -/
def isDigit (b : UInt8) : Bool :=
  48 ≤ b && b ≤ 57

/-- Go `unicode.IsLetter` on `rune(b)`: ASCII letters plus the Latin-1
letters U+00AA, U+00B5, U+00BA, U+00C0–U+00D6, U+00D8–U+00F6, U+00F8–U+00FF. -/
def isLetter (b : UInt8) : Bool :=
  (65 ≤ b && b ≤ 90) || (97 ≤ b && b ≤ 122) || b == 170 || b == 181 || b == 186 ||
  (192 ≤ b && b ≤ 214) || (216 ≤ b && b ≤ 246) || 248 ≤ b

/-- `Lexer.validIdentChar`. -/
def validIdentChar (b : UInt8) : Bool :=
  isLetter b || isDigit b || b == 95

/-- `Lexer.validFirstIdentChar`. -/
def validFirstIdentChar (b : UInt8) : Bool :=
  isLetter b

/-- `reader.ReadByte`: `none` models the `io.EOF` error. -/
def readByte : Reader → Option (UInt8 × Reader)
  | [] => none
  | b :: rest => some (b, rest)

/-- `reader.Peek n` (no consumption; may return fewer than `n` bytes). -/
def peekN (n : Nat) (r : Reader) : List UInt8 :=
  r.take n

/-- `Lexer.skipWhitespace`: reads bytes while the current one is whitespace.
The first component is `none` when `ReadByte` failed (caller sees the error). -/
def skipWhitespace (chr : UInt8) (r : Reader) : Option UInt8 × Reader :=
  if isSpace chr then
    match r with
    | [] => (none, [])
    | b :: rest => skipWhitespace b rest
  else (some chr, r)

/-- The `for peek[0] != '*' || peek[1] != '/'` loop of
`skipCommentsAndWhitespace`: consume bytes until `*/` is the next two-byte
window (`true`) or fewer than two bytes remain (`false`, the
`errors.New("")` path). -/
def commentScan (r : Reader) : Bool × Reader :=
  match r with
  | a :: b :: rest =>
      if a == 42 && b == 47 then (true, a :: b :: rest)
      else commentScan (b :: rest)
  | short => (false, short)

/-- `Lexer.skipCommentsAndWhitespace`.  Returns `(some chr, r)` on the
normal path, `(some 0, r)` for the `len(peek) < 1` early return (no error!),
and `(none, r)` when an error is returned (caller yields `TokEOF`). -/
def skipCommentsAndWhitespace (chr : UInt8) (r : Reader) : Option UInt8 × Reader :=
  match skipWhitespace chr r with
  | (none, r) => (none, r)
  | (some chr, r) =>
    match peekN 1 r with
    | [] => (some 0, r)
    | p0 :: _ =>
      if chr == 47 && p0 == 42 then
        match r with
        | [] => (none, [])
        | _ :: r1 =>
          match commentScan r1 with
          | (false, r2) => (none, r2)
          | (true, r2) =>
            match r2.drop 2 with
            | [] => (none, [])
            | c :: r4 => skipWhitespace c r4
      else (some chr, r)

/-- The identifier/keyword scanning loop of `parseToken`: append bytes
while `peek(1)[0]` is a valid identifier character.  `none` models the Go
runtime panic of `peek[0]` on an empty peek at end of stream. -/
def identScan (acc : String) (r : Reader) : Option (String × Reader) :=
  match r with
  | [] => none
  | p :: rest =>
      if validIdentChar p then identScan (acc.push (Char.ofNat p.toNat)) rest
      else some (acc, p :: rest)

/-- The digit-scanning loops of the number branch of `parseToken`
(`none` models the `peek[0]` panic on empty peek). -/
def digitScan (acc : String) (r : Reader) : Option (String × Reader) :=
  match r with
  | [] => none
  | p :: rest =>
      if isDigit p then digitScan (acc.push (Char.ofNat p.toNat)) rest
      else some (acc, p :: rest)

/-- The string-constant scanning loop of `parseToken`; on success the
closing quote has been eaten (`none` models the `peek[0]` panic). -/
def stringScan (acc : String) (r : Reader) : Option (String × Reader) :=
  match r with
  | [] => none
  | p :: rest =>
      if p == 34 then some (acc, rest)
      else stringScan (acc.push (Char.ofNat p.toNat)) rest

/-- Numeric value of a run of decimal digit characters. -/
def digitsVal (s : List Char) : Nat :=
  s.foldl (fun a c => a * 10 + (c.toNat - 48)) 0

/-- Models the external `strconv.ParseFloat(numStr, 64)` as the exact
rational value of the decimal numeral (the claims never depend on
float64 rounding). -/
def parseFloatModel (s : String) : Rat :=
  match s.splitOn "." with
  | [w] => (digitsVal w.toList : Rat)
  | [w, f] => (digitsVal w.toList : Rat) + (digitsVal f.toList : Rat) / ((10 : Rat) ^ f.length)
  | _ => 0

/-- The `lexer.Lexer` struct: `str` is the `String` field, `numVal` the
`NumVal` field, `input` the remaining bytes of the reader. -/
structure Lexer where
  str : String
  numVal : Rat
  input : Reader
deriving DecidableEq, Repr

/-- Keyword table of `parseToken` (the if/else chain on the scanned word). -/
def keywordTok (s : String) : Option Int :=
  if s = "def" then some TokDef
  else if s = "extern" then some TokExtern
  else if s = "set" then some TokSet
  else if s = "const" then some TokConst
  else if s = "return" then some TokReturn
  else if s = "if" then some TokIf
  else if s = "else" then some TokElse
  else if s = "while" then some TokWhile
  else if s = "string" then some TokString
  else if s = "double" then some TokDouble
  else if s = "void" then some TokVoid
  else none

/-- `Lexer.parseToken` (the body of `NextToken`).  `none` models a Go
runtime panic (indexing an empty peek inside a scanning loop); every
non-panicking path yields the token and the updated lexer. -/
def parseToken (l : Lexer) : Option (Lexer × Int) :=
  match l.input with
  | [] => some (l, TokEOF)
  | chr :: r =>
    match skipCommentsAndWhitespace chr r with
    | (none, r) => some ({ l with input := r }, TokEOF)
    | (some chr, r) =>
      if validFirstIdentChar chr then
        match identScan (String.singleton (Char.ofNat chr.toNat)) r with
        | none => none
        | some (str, r) =>
          match keywordTok str with
          | some t => some ({ l with input := r }, t)
          | none => some ({ l with input := r, str := str }, TokIdentifier)
      else if isDigit chr then
        match digitScan (String.singleton (Char.ofNat chr.toNat)) r with
        | none => none
        | some (numStr, r) =>
          match r with
          | [] => none
          | p :: rest =>
            if p == 46 then
              match digitScan (numStr.push '.') rest with
              | none => none
              | some (numStr, r) =>
                some ({ l with input := r, numVal := parseFloatModel numStr }, TokNumVal)
            else
              some ({ l with input := p :: rest, numVal := parseFloatModel numStr }, TokNumVal)
      else if chr == 34 then
        match stringScan "" r with
        | none => none
        | some (str, r) => some ({ l with input := r, str := str }, TokStringConst)
      else
        some ({ l with input := r }, Int.ofNat chr.toNat)

/-! ## AST and type model (Go `parser` package: `types.go`, `ast.go`)

The Go AST is a set of structs implementing the `AST`/`ExprAST`
interfaces; it is modelled as closed tagged variants.  `Ty` is the Go
`parser.Type` enum (named `Ty` because `Type` is reserved in Lean). -/

inductive Ty where
  | Invalid
  | Double
  | String
  | Void
deriving DecidableEq, Repr

/-- Expression nodes: `NumberExprAST`, `StringExprAST`, `VariableExprAST`,
`CallExprAST`, `BinaryExprAST` (whose `Operator` is its rune). -/
inductive ExprAST where
  | number (val : Rat)
  | strLit (val : String)
  | varRef (name : String)
  | call (funcName : String) (args : List ExprAST)
  | binary (lhs : ExprAST) (op : Char) (rhs : ExprAST)
deriving Repr

/-- Statement-level nodes wrapped by `StatementAST`: `AssignmentAST`,
`ReturnAST`, `IfAST`, `WhileAST`, or a bare expression.  `IfAST.ElseBody`
is a nilable slice, hence the `Option`. -/
inductive StmtAST where
  | assign (varName : String) (expr : ExprAST)
  | ret (expr : ExprAST)
  | ifStmt (cond : ExprAST) (ifBody : List StmtAST) (elseBody : Option (List StmtAST))
  | whileStmt (cond : ExprAST) (body : List StmtAST)
  | exprStmt (expr : ExprAST)
deriving Repr

/-- `parser.Param` (the unused `Len` field is kept, as in the source). -/
structure Param where
  name : String
  ty : Ty
  len : Nat := 0
deriving DecidableEq, Repr

/-- `parser.PrototypeAST`. -/
structure PrototypeAST where
  funcName : String
  params : List Param
  returnType : Ty
deriving DecidableEq, Repr

/-- `parser.FunctionAST`. -/
structure FunctionAST where
  prototype : PrototypeAST
  body : List StmtAST
deriving Repr

/-! ## Parser (Go `parser/parser.go`)

The parser consumes tokens produced one at a time by the lexer via
`CurrTok`/`NextToken`; it is embedded over a stream of pre-lexed tokens
(`Tok` carries the token number and the `String`/`NumVal` payloads the
parser reads for identifiers, numbers and string constants).  `nextToken`
pops the stream; at exhaustion the current token stays `TokEOF`, exactly
as the lexer keeps returning `TokEOF` at end of stream.  The `fuel`
argument is a termination device only. -/

structure Tok where
  tok : Int
  str : String := ""
  num : Rat := 0
deriving DecidableEq, Repr

structure PState where
  curr : Tok
  rest : List Tok
deriving DecidableEq, Repr

/-- Build a parser state positioned at the first token of the list. -/
def mkPState : List Tok → PState
  | [] => ⟨{ tok := TokEOF }, []⟩
  | t :: ts => ⟨t, ts⟩

/-- `p.lexer.NextToken()` as seen by the parser. -/
def nextToken (s : PState) : PState :=
  match s.rest with
  | [] => ⟨{ tok := TokEOF }, []⟩
  | t :: ts => ⟨t, ts⟩

/-- The `opPrecedence` map (codegen helper file): `rune → int`. -/
def opPrecedence (c : Char) : Option Int :=
  if c = '=' then some 0
  else if c = '!' then some 0
  else if c = '<' then some 10
  else if c = '>' then some 10
  else if c = '+' then some 20
  else if c = '-' then some 20
  else if c = '*' then some 40
  else none

/-- `IsOperator(chr int)`: membership of `rune(chr)` in `opPrecedence`. -/
def IsOperator (chr : Int) : Bool :=
  (opPrecedence (Char.ofNat chr.toNat)).isSome

/-- `Operator.GetPrecedence`: indexing the map, with Go's zero value `0`
for a missing key. -/
def GetPrecedence (c : Char) : Int :=
  (opPrecedence c).getD 0

mutual

/-- `Parser.ParsePrimary`. -/
def ParsePrimary : Nat → PState → Except String (ExprAST × PState)
  | 0, _ => .error "out of fuel"
  | fuel + 1, s =>
    if s.curr.tok = TokIdentifier then parseIdentifierExpr fuel s
    else if s.curr.tok = TokNumVal then
      .ok (.number s.curr.num, nextToken s)
    else if s.curr.tok = TokStringConst then
      .ok (.strLit s.curr.str, nextToken s)
    else if s.curr.tok = 40 then parseParenExpr fuel s
    else .error ("unknown token when parsing primary: " ++ String.singleton (Char.ofNat s.curr.tok.toNat))

/-- `Parser.parseIdentifierExpr` (bare variable reference, or call with
comma-separated arguments). -/
def parseIdentifierExpr : Nat → PState → Except String (ExprAST × PState)
  | 0, _ => .error "out of fuel"
  | fuel + 1, s =>
    let id := s.curr.str
    let s := nextToken s
    if s.curr.tok ≠ 40 then .ok (.varRef id, s)
    else
      let s := nextToken s
      if s.curr.tok = 41 then .ok (.call id [], nextToken s)
      else
        match parseCallArgs fuel [] s with
        | .error e => .error e
        | .ok (args, s) => .ok (.call id args, s)

/-- The argument loop inside `parseIdentifierExpr`. -/
def parseCallArgs : Nat → List ExprAST → PState → Except String (List ExprAST × PState)
  | 0, _, _ => .error "out of fuel"
  | fuel + 1, acc, s =>
    match parseExpression fuel s with
    | .error e => .error e
    | .ok (arg, s) =>
      let acc := acc ++ [arg]
      if s.curr.tok ≠ 44 ∧ s.curr.tok ≠ 41 then
        .error "expected , or ) in function call"
      else
        let currTok := s.curr.tok
        let s := nextToken s
        if currTok = 41 then .ok (acc, s)
        else parseCallArgs fuel acc s

/-- `Parser.parseParenExpr`. -/
def parseParenExpr : Nat → PState → Except String (ExprAST × PState)
  | 0, _ => .error "out of fuel"
  | fuel + 1, s =>
    let s := nextToken s
    match parseExpression fuel s with
    | .error e => .error e
    | .ok (expression, s) =>
      if s.curr.tok ≠ 41 then .error "expected closing ) for expression"
      else .ok (expression, nextToken s)

/-- `Parser.parseExpression`: a primary followed by `parseBinaryExprRHS`
with minimum precedence 0. -/
def parseExpression : Nat → PState → Except String (ExprAST × PState)
  | 0, _ => .error "out of fuel"
  | fuel + 1, s =>
    match ParsePrimary fuel s with
    | .error e => .error e
    | .ok (lhsExpr, s) => parseBinaryExprRHS fuel 0 lhsExpr s

/-- `Parser.parseBinaryExprRHS`: the precedence-climbing loop (the Go
`for true` loop is the tail call with unchanged `exprPrecedence`). -/
def parseBinaryExprRHS : Nat → Int → ExprAST → PState → Except String (ExprAST × PState)
  | 0, _, _, _ => .error "out of fuel"
  | fuel + 1, exprPrecedence, lhsExpr, s =>
    let tokPrecedence : Int :=
      if IsOperator s.curr.tok then GetPrecedence (Char.ofNat s.curr.tok.toNat) else -1
    if tokPrecedence < exprPrecedence then .ok (lhsExpr, s)
    else
      let op : Char := Char.ofNat s.curr.tok.toNat
      let s := nextToken s
      match ParsePrimary fuel s with
      | .error e => .error e
      | .ok (rhsExpr, s) =>
        let nextPrecedence : Int :=
          if IsOperator s.curr.tok then GetPrecedence (Char.ofNat s.curr.tok.toNat) else -1
        if tokPrecedence < nextPrecedence then
          match parseBinaryExprRHS fuel (tokPrecedence + 1) rhsExpr s with
          | .error e => .error e
          | .ok (rhsExpr, s) =>
            parseBinaryExprRHS fuel exprPrecedence (.binary lhsExpr op rhsExpr) s
        else
          parseBinaryExprRHS fuel exprPrecedence (.binary lhsExpr op rhsExpr) s

end

/-! ## IR model (the consumed `llir/llvm` collaborator)

Only the operations the code generator requests are modelled: typed
values, instructions appended to named basic blocks, branch/return
terminators, functions in a module.  `IRType.nilType` models a Go `nil`
`types.Type` (what `getIRType` returns for `Invalid`); `Value.nilValue`
models a Go `nil` `value.Value` (a method call on it panics in Go, so
theorems about paths where it could occur carry non-nil hypotheses). -/

inductive IRType where
  | double
  | i8
  | i1
  | void
  | ptr (elem : IRType)
  | array (n : Nat) (elem : IRType)
  | nilType
deriving DecidableEq, Repr

inductive Value where
  | nilValue
  | constFloat (val : Rat)
  | constCharArray (content : String)
  | param (funcName name : String) (t : IRType)
  | instr (id : Nat) (t : IRType)
deriving DecidableEq, Repr

/-- `val.Type()`.  A `constant.Float` made by `NewFloat(types.Double, v)`
has type double; a `constant.CharArray` has type `[len x i8]` (the stored
content already includes the trailing NUL byte appended by the code). -/
def valueType : Value → IRType
  | .nilValue => .nilType
  | .constFloat _ => .double
  | .constCharArray content => .array content.length .i8
  | .param _ _ t => t
  | .instr _ t => t

/-- `val.(constant.Constant)` succeeds exactly for the constant kinds. -/
def isConstant : Value → Bool
  | .constFloat _ => true
  | .constCharArray _ => true
  | _ => false

inductive FPred where
  | olt
  | ogt
  | oeq
  | one
deriving DecidableEq, Repr

/-- Instructions the generator appends; each value-producing instruction
records the id of its result value. -/
inductive Instr where
  | alloca (id : Nat) (t : IRType)
  | load (id : Nat) (t : IRType) (src : Value)
  | store (val : Value) (dst : Value)
  | fmul (id : Nat) (a b : Value)
  | fadd (id : Nat) (a b : Value)
  | fsub (id : Nat) (a b : Value)
  | fcmp (id : Nat) (pred : FPred) (a b : Value)
  | uitofp (id : Nat) (a : Value) (t : IRType)
  | callInst (id : Nat) (funcName : String) (args : List Value)
  | bitcast (id : Nat) (a : Value) (t : IRType)
deriving DecidableEq, Repr

inductive Terminator where
  | ret (v : Option Value)
  | br (dest : String)
  | condbr (cond : Value) (tdest fdest : String)
deriving DecidableEq, Repr

structure Block where
  name : String
  insts : List Instr
  term : Option Terminator
deriving DecidableEq, Repr

structure Func where
  name : String
  params : List (String × IRType)
  retType : IRType
  blocks : List Block
deriving DecidableEq, Repr

/-! ## Code generator state (codegen helper file + `ast.go`)

`funcs` is `Module.Funcs`; `globals` is `namedValues[nil]`; `locals` is
`namedValues[theFunc]` for the function currently being lowered
(`currentFunc`), which is the only per-function entry the code ever reads
while lowering that function.  Go map writes are modelled by
replace-or-append on an association list (iteration order of the map is
never observed by the code).  `nextId` numbers instruction results. -/

structure GenState where
  funcs : List Func
  globals : List (String × Value)
  locals : List (String × Value)
  currentFunc : String
  nextId : Nat
deriving DecidableEq, Repr

def initState : GenState :=
  { funcs := [], globals := [], locals := [], currentFunc := "", nextId := 0 }

/-- Go map read `m[k]` as an option. -/
def lookupVar (m : List (String × Value)) (k : String) : Option Value :=
  (m.find? (fun p => p.1 = k)).map (fun p => p.2)

/-- Go map write `m[k] = v` (replace or append). -/
def mapSet (m : List (String × Value)) (k : String) (v : Value) : List (String × Value) :=
  match m with
  | [] => [(k, v)]
  | (k', v') :: rest => if k' = k then (k', v) :: rest else (k', v') :: mapSet rest k v

/-- `getFunc(module, name)`: linear search of `Module.Funcs`, `nil` when
absent. -/
def getFunc (funcs : List Func) (name : String) : Option Func :=
  funcs.find? (fun f => f.name = name)

/-- Hex digit character for a value below 16. -/
def hexChar (n : Nat) : Char :=
  Char.ofNat (if n < 10 then 48 + n else 87 + n)

/-- Fixed-width 8-hex-digit rendering of a 32-bit value. -/
def toHex8 (n : Nat) : List Char :=
  [hexChar (n / 268435456 % 16), hexChar (n / 16777216 % 16), hexChar (n / 1048576 % 16),
   hexChar (n / 65536 % 16), hexChar (n / 4096 % 16), hexChar (n / 256 % 16),
   hexChar (n / 16 % 16), hexChar (n % 16)]

/-- Models the external `crypto/md5` hex digest used by `getMD5Hash`
(a deterministic 32-hex-character placeholder; no claim depends on the
digest's value, only on block names being role-prefixed and distinct). -/
def getMD5Hash (text : String) : String :=
  let h := text.toList.foldl (fun h c => (h * 131 + c.toNat) % 4294967296) 5381
  String.mk (toHex8 h ++ toHex8 (h * 31 % 4294967296) ++
    toHex8 (h * 37 % 4294967296) ++ toHex8 (h * 41 % 4294967296))

/-- Rewrite the named block of the current function. -/
def modifyBlock (s : GenState) (bn : String) (g : Block → Block) : GenState :=
  { s with funcs := s.funcs.map fun f =>
      if f.name = s.currentFunc then
        { f with blocks := f.blocks.map fun b => if b.name = bn then g b else b }
      else f }

/-- Append a value-producing instruction to the named block of the current
function and return its result value. -/
def emit (s : GenState) (bn : String) (mk : Nat → Instr) (resTy : IRType) : Value × GenState :=
  let v := Value.instr s.nextId resTy
  let s := modifyBlock s bn (fun b => { b with insts := b.insts ++ [mk s.nextId] })
  (v, { s with nextId := s.nextId + 1 })

/-- Append a `store` (no result value is used by the code). -/
def emitStore (s : GenState) (bn : String) (val dst : Value) : GenState :=
  modifyBlock s bn (fun b => { b with insts := b.insts ++ [.store val dst] })

/-- Set the named block's terminator (llir's `NewRet`/`NewBr`/`NewCondBr`
assign `block.Term`). -/
def setTerm (s : GenState) (bn : String) (t : Terminator) : GenState :=
  modifyBlock s bn (fun b => { b with term := some t })

def getBlock (s : GenState) (bn : String) : Option Block :=
  match getFunc s.funcs s.currentFunc with
  | some f => f.blocks.find? (fun b => b.name = bn)
  | none => none

def getBlockTerm (s : GenState) (bn : String) : Option Terminator :=
  (getBlock s bn).bind (fun b => b.term)

/-- Append a fresh block to the named function (`func.NewBlock`). -/
def addBlockToFunc (s : GenState) (fn : String) (b : Block) : GenState :=
  { s with funcs := s.funcs.map fun f =>
      if f.name = fn then { f with blocks := f.blocks ++ [b] } else f }

/-- `newBlock(block, name)`: role name suffixed with the first 8 hex
characters of the digest of the enclosing block's name plus the role
name; the new block is appended to `block.Parent`. -/
def newBlock (s : GenState) (bn : String) (name : String) : String × GenState :=
  let hash := String.mk ((getMD5Hash (bn ++ name)).toList.take 8)
  let newName := name ++ "_" ++ hash
  (newName, addBlockToFunc s s.currentFunc { name := newName, insts := [], term := none })

/-- `getIRType` (codegen helper file); Go returns `nil` for `Invalid`. -/
def getIRType : Ty → IRType
  | .Double => .double
  | .String => .ptr .i8
  | .Void => .void
  | .Invalid => .nilType

/-- `getType` (codegen helper file): the type switch on `val.Type()`.
An `[n x i8]` array is `String`; any float type is `Double`; a pointer to
a float type is `Double`; a pointer to a pointer to `i8` is `String`;
everything else is `Invalid`. -/
def getType (val : Value) : Ty :=
  match valueType val with
  | .array _ e => if e = .i8 then .String else .Invalid
  | .double => .Double
  | .ptr e =>
    match e with
    | .double => .Double
    | .ptr e2 => if e2 = .i8 then .String else .Invalid
    | _ => .Invalid
  | _ => .Invalid

/-- `load(block, namedVar)`: `block.NewLoad(getIRType(getType(namedVar)), namedVar)`. -/
def load (s : GenState) (bn : String) (namedVar : Value) : Value × GenState :=
  emit s bn (fun id => .load id (getIRType (getType namedVar)) namedVar)
    (getIRType (getType namedVar))

/-- `retrieveVar(block, name)`.  STEP 0: at top level (`block == nil`) the
global map is read and the result — `nil` for a missing key — is returned
with a `nil` error.  STEP 1: a local binding is loaded from its storage
slot.  STEP 2: a global binding is returned directly.  Otherwise the
"could not identify var" failure. -/
def retrieveVar (s : GenState) (block : Option String) (name : String) :
    GenState × Except String Value :=
  match block with
  | none => (s, .ok ((lookupVar s.globals name).getD .nilValue))
  | some bn =>
    match lookupVar s.locals name with
    | some namedVar =>
      let (v, s) := load s bn namedVar
      (s, .ok v)
    | none =>
      match lookupVar s.globals name with
      | some val => (s, .ok val)
      | none => (s, .error ("could not identify var: " ++ name))

/-- `store(block, name, val, namedVar)`. -/
def store (s : GenState) (bn : String) (name : String) (val namedVar : Value) :
    GenState × Except String Unit :=
  match valueType namedVar with
  | .ptr elem =>
    if valueType val = elem then (emitStore s bn val namedVar, .ok ())
    else (s, .error ("cannot store incompatible type for: " ++ name))
  | _ => (s, .error ("cannot write to variable " ++ name))

/-- `setVar(block, name, val)`.  STEP 0: at top level the binding is
recorded into the global map first, and only then the constant-expression
check may fail.  STEP 1: an existing local slot is stored to.  STEP 2: a
global binding rejects the write.  STEP 3: a fresh stack slot is
allocated, bound locally, and stored to. -/
def setVar (s : GenState) (block : Option String) (name : String) (val : Value) :
    GenState × Except String Unit :=
  match block with
  | none =>
    let s := { s with globals := mapSet s.globals name val }
    if isConstant val then (s, .ok ())
    else (s, .error (name ++ " is not equal to constant expression"))
  | some bn =>
    match lookupVar s.locals name with
    | some namedVar => store s bn name val namedVar
    | none =>
      match lookupVar s.globals name with
      | some _ => (s, .error ("cannot write to constant variable: " ++ name))
      | none =>
        let (newVar, s) := emit s bn (fun id => .alloca id (valueType val)) (.ptr (valueType val))
        let s := { s with locals := mapSet s.locals name newVar }
        store s bn name val newVar

/-- `BinaryExprAST.handleStringOps`: a switch with only a default case. -/
def handleStringOps (s : GenState) (bn : String) (op : Char) (leftValue rightValue : Value) :
    GenState × Except String Value :=
  (s, .error ("unsupported operator for double: " ++ String.singleton op))

/-- `BinaryExprAST.handleDoubleOps`. -/
def handleDoubleOps (s : GenState) (bn : String) (op : Char) (leftValue rightValue : Value) :
    GenState × Except String Value :=
  if op = '*' then
    let (v, s) := emit s bn (fun id => .fmul id leftValue rightValue) (valueType leftValue)
    (s, .ok v)
  else if op = '+' then
    let (v, s) := emit s bn (fun id => .fadd id leftValue rightValue) (valueType leftValue)
    (s, .ok v)
  else if op = '-' then
    let (v, s) := emit s bn (fun id => .fsub id leftValue rightValue) (valueType leftValue)
    (s, .ok v)
  else if op = '<' then
    let (cmp, s) := emit s bn (fun id => .fcmp id .olt leftValue rightValue) .i1
    let (v, s) := emit s bn (fun id => .uitofp id cmp .double) .double
    (s, .ok v)
  else if op = '>' then
    let (cmp, s) := emit s bn (fun id => .fcmp id .ogt leftValue rightValue) .i1
    let (v, s) := emit s bn (fun id => .uitofp id cmp .double) .double
    (s, .ok v)
  else if op = '=' then
    let (cmp, s) := emit s bn (fun id => .fcmp id .oeq leftValue rightValue) .i1
    let (v, s) := emit s bn (fun id => .uitofp id cmp .double) .double
    (s, .ok v)
  else if op = '!' then
    let (cmp, s) := emit s bn (fun id => .fcmp id .one leftValue rightValue) .i1
    let (v, s) := emit s bn (fun id => .uitofp id cmp .double) .double
    (s, .ok v)
  else (s, .error ("unsupported operator for double: " ++ String.singleton op))

/-- The tail of `BinaryExprAST.CodeGen` once both operands are lowered:
the operand-type equality check, then the dispatch on the common type. -/
def binOpGen (s : GenState) (bn : String) (op : Char) (leftValue rightValue : Value) :
    GenState × Except String Value :=
  if getType leftValue ≠ getType rightValue then
    (s, .error "types in binary expression must match")
  else
    match getType leftValue with
    | .Double => handleDoubleOps s bn op leftValue rightValue
    | .String => handleStringOps s bn op leftValue rightValue
    | _ => (s, .error "unexpected type in binary expression")

/-! ## AST lowering (`ast.go` `CodeGen` methods + `genStatements`)

`CodeGen` returns `(interface{}, error)`; the interface values the code
actually inspects are modelled by `GenResult`.  The Go methods mutate
blocks in place, so every function here returns the state even on the
error path (instructions already emitted remain in their blocks).  A
`"runtime panic:"` error models a Go nil-pointer panic (calling a block
method with `block == nil`); no claim exercises those paths.  `fuel` is a
termination device only. -/

inductive GenResult where
  | noneRes
  | value (v : Value)
  | blockRef (b : String)
  | termRes
  | funcRef (f : String)
deriving DecidableEq, Repr

mutual

/-- The `CodeGen` methods of the expression nodes (`NumberExprAST`,
`StringExprAST`, `VariableExprAST`, `CallExprAST`, `BinaryExprAST`). -/
def exprCodeGen : Nat → ExprAST → Option String → GenState → GenState × Except String Value
  | 0, _, _, s => (s, .error "out of fuel")
  | fuel + 1, e, block, s =>
    match e with
    | .number val => (s, .ok (.constFloat val))
    | .strLit val =>
      match block with
      | none => (s, .error "runtime panic: nil block")
      | some bn =>
        let charArray := Value.constCharArray (val.push (Char.ofNat 0))
        let (x, s) := emit s bn (fun id => .alloca id (valueType charArray))
          (.ptr (valueType charArray))
        let s := emitStore s bn charArray x
        let (v, s) := emit s bn (fun id => .bitcast id x (.ptr .i8)) (.ptr .i8)
        (s, .ok v)
    | .varRef name => retrieveVar s block name
    | .call funcName args =>
      match getFunc s.funcs funcName with
      | none => (s, .error ("could not find function: " ++ funcName))
      | some f =>
        match exprListCodeGen fuel args block s with
        | (s, .error e) => (s, .error e)
        | (s, .ok vals) =>
          match block with
          | none => (s, .error "runtime panic: nil block")
          | some bn =>
            let (v, s) := emit s bn (fun id => .callInst id funcName vals) f.retType
            (s, .ok v)
    | .binary lhs op rhs =>
      match block with
      | none => (s, .error "can not use binary expression at top level")
      | some bn =>
        match exprCodeGen fuel lhs (some bn) s with
        | (s, .error e) => (s, .error e)
        | (s, .ok leftValue) =>
          match exprCodeGen fuel rhs (some bn) s with
          | (s, .error e) => (s, .error e)
          | (s, .ok rightValue) => binOpGen s bn op leftValue rightValue

/-- The argument-lowering loop of `CallExprAST.CodeGen`. -/
def exprListCodeGen : Nat → List ExprAST → Option String → GenState →
    GenState × Except String (List Value)
  | 0, _, _, s => (s, .error "out of fuel")
  | fuel + 1, es, block, s =>
    match es with
    | [] => (s, .ok [])
    | e :: rest =>
      match exprCodeGen fuel e block s with
      | (s, .error err) => (s, .error err)
      | (s, .ok v) =>
        match exprListCodeGen fuel rest block s with
        | (s, .error err) => (s, .error err)
        | (s, .ok vs) => (s, .ok (v :: vs))

/-- The `CodeGen` methods of the statement-level nodes (`AssignmentAST`,
`ReturnAST`, `IfAST`, `WhileAST`, and `StatementAST` around a bare
expression). -/
def stmtCodeGen : Nat → StmtAST → Option String → GenState → GenState × Except String GenResult
  | 0, _, _, s => (s, .error "out of fuel")
  | fuel + 1, st, block, s =>
    match st with
    | .assign varName expr =>
      match exprCodeGen fuel expr block s with
      | (s, .error err) => (s, .error err)
      | (s, .ok v) =>
        match setVar s block varName v with
        | (s, .error err) => (s, .error err)
        | (s, .ok _) => (s, .ok .noneRes)
    | .ret expr =>
      match exprCodeGen fuel expr block s with
      | (s, .error err) => (s, .error err)
      | (s, .ok v) =>
        match block with
        | none => (s, .error "runtime panic: nil block")
        | some bn => (setTerm s bn (.ret (some v)), .ok .termRes)
    | .exprStmt expr =>
      match exprCodeGen fuel expr block s with
      | (s, .error err) => (s, .error err)
      | (s, .ok v) => (s, .ok (.value v))
    | .ifStmt cond ifBody elseBody =>
      match block with
      | none => (s, .error "runtime panic: nil block")
      | some bn =>
        let (ifBlock, s) := newBlock s bn "if-true-block"
        let (afterBlock, s) := newBlock s bn "if-after-block"
        match exprCodeGen fuel cond (some bn) s with
        | (s, .error e) => (s, .error e)
        | (s, .ok condVal0) =>
          let (condVal, s) := emit s bn (fun id => .fcmp id .ogt condVal0 (.constFloat 0)) .i1
          match genStatements fuel ifBody ifBlock s with
          | (s, .error e) => (s, .error e)
          | (s, .ok ifCurrentBlock) =>
            let s := if getBlockTerm s ifCurrentBlock = none then
                setTerm s ifCurrentBlock (.br afterBlock) else s
            match elseBody with
            | some eb =>
              let (elseBlock, s) := newBlock s bn "if-false-block"
              match genStatements fuel eb elseBlock s with
              | (s, .error e) => (s, .error e)
              | (s, .ok elseCurrentBlock) =>
                let s := if getBlockTerm s elseCurrentBlock = none then
                    setTerm s elseCurrentBlock (.br afterBlock) else s
                let s := setTerm s bn (.condbr condVal ifBlock elseBlock)
                (s, .ok (.blockRef afterBlock))
            | none =>
              let s := setTerm s bn (.condbr condVal ifBlock afterBlock)
              (s, .ok (.blockRef afterBlock))
    | .whileStmt cond body =>
      match block with
      | none => (s, .error "runtime panic: nil block")
      | some bn =>
        let (testBlock, s) := newBlock s bn "while-test"
        let (loopBlock, s) := newBlock s bn "while-loop"
        let (afterBlock, s) := newBlock s bn "while-after"
        match exprCodeGen fuel cond (some testBlock) s with
        | (s, .error e) => (s, .error e)
        | (s, .ok condVal0) =>
          let (condVal, s) := emit s testBlock (fun id => .fcmp id .ogt condVal0 (.constFloat 0)) .i1
          let s := setTerm s testBlock (.condbr condVal loopBlock afterBlock)
          let s := setTerm s bn (.br testBlock)
          match genStatements fuel body loopBlock s with
          | (s, .error e) => (s, .error e)
          | (s, .ok loopCurrentBlock) =>
            let s := if getBlockTerm s loopCurrentBlock = none then
                setTerm s loopCurrentBlock (.br testBlock) else s
            (s, .ok (.blockRef afterBlock))

/-- `genStatements(block, stmts)` (codegen helper file): lower each
statement into the current block, following a returned `*ir.Block` as the
new current block; returns the final current block. -/
def genStatements : Nat → List StmtAST → String → GenState → GenState × Except String String
  | 0, _, _, s => (s, .error "out of fuel")
  | fuel + 1, stmts, bn, s =>
    match stmts with
    | [] => (s, .ok bn)
    | st :: rest =>
      match stmtCodeGen fuel st (some bn) s with
      | (s, .error e) => (s, .error e)
      | (s, .ok res) =>
        let bn := match res with
          | .blockRef b => b
          | _ => bn
        genStatements fuel rest bn s

end

/-- `PrototypeAST.CodeGen`: `Module.NewFunc` with `getIRType`-converted
parameter and return types (appended to `Module.Funcs`). -/
def prototypeCodeGen (p : PrototypeAST) (s : GenState) : GenState × Func :=
  let f : Func :=
    { name := p.funcName,
      params := p.params.map (fun pr => (pr.name, getIRType pr.ty)),
      retType := getIRType p.returnType,
      blocks := [] }
  ({ s with funcs := s.funcs ++ [f] }, f)

/-- The parameter-binding loop of `FunctionAST.CodeGen`:
`setVar(entry, param.Name(), param)` for each parameter. -/
def bindParams (ps : List (String × IRType)) (fn : String) (s : GenState) :
    GenState × Except String Unit :=
  match ps with
  | [] => (s, .ok ())
  | (n, t) :: rest =>
    match setVar s (some "entry") n (.param fn n t) with
    | (s, .error e) => (s, .error e)
    | (s, .ok _) => bindParams rest fn s

/-- `FunctionAST.CodeGen`: reuse or create the function, add the entry
block, reset the local table, bind parameters, lower the body, and handle
an unterminated final block (hard error for non-void, implicit bare
return for void). -/
def functionCodeGen (fuel : Nat) (f : FunctionAST) (s : GenState) :
    GenState × Except String GenResult :=
  let (s, theFunc) :=
    match getFunc s.funcs f.prototype.funcName with
    | some fn => (s, fn)
    | none => prototypeCodeGen f.prototype s
  let s := addBlockToFunc s theFunc.name { name := "entry", insts := [], term := none }
  let s := { s with locals := [], currentFunc := theFunc.name }
  match bindParams theFunc.params theFunc.name s with
  | (s, .error e) => (s, .error e)
  | (s, .ok _) =>
    match genStatements fuel f.body "entry" s with
    | (s, .error e) => (s, .error e)
    | (s, .ok currentBlock) =>
      if getBlockTerm s currentBlock = none then
        if f.prototype.returnType ≠ Ty.Void then
          (s, .error ("non-void function: " ++ f.prototype.funcName ++ " needs return"))
        else
          (setTerm s currentBlock (.ret none), .ok (.funcRef theFunc.name))
      else (s, .ok (.funcRef theFunc.name))

/-! ## Concrete programs and states used by the claims -/

/-- Source scenario `def double cmp(double a, double b) { if a > b { return a; } else { return b; } }`. -/
def cmpAST : FunctionAST :=
  { prototype := { funcName := "cmp", params := [⟨"a", .Double, 0⟩, ⟨"b", .Double, 0⟩],
                   returnType := .Double },
    body := [.ifStmt (.binary (.varRef "a") '>' (.varRef "b"))
               [.ret (.varRef "a")] (some [.ret (.varRef "b")])] }

def c2result : GenState × Except String GenResult :=
  functionCodeGen 100 cmpAST initState

/-- Source scenario `def void loop() { set i = 0.0; while i < 10.0 { set i = i + 1.0; } }`. -/
def loopAST : FunctionAST :=
  { prototype := { funcName := "loop", params := [], returnType := .Void },
    body := [.assign "i" (.number 0),
             .whileStmt (.binary (.varRef "i") '<' (.number 10))
               [.assign "i" (.binary (.varRef "i") '+' (.number 1))]] }

def c9result : GenState × Except String GenResult :=
  functionCodeGen 100 loopAST initState

/-- A module with a String-returning function `getS` and a function `main`
being lowered (scenario E: mixing a String-returning call with a number). -/
def scenarioEState : GenState :=
  { funcs := [{ name := "getS", params := [], retType := .ptr .i8, blocks := [] },
              { name := "main", params := [], retType := .double,
                blocks := [{ name := "entry", insts := [], term := none }] }],
    globals := [], locals := [], currentFunc := "main", nextId := 0 }

/-- A numeric-literal token as the lexer produces it. -/
def numTok (v : Rat) : Tok := { tok := TokNumVal, num := v }

/-- A single-character token (`int(chr)`). -/
def chTok (c : Char) : Tok := { tok := Int.ofNat c.toNat }

/-- Parser state after all tokens are consumed. -/
def eofPState : PState := ⟨{ tok := TokEOF }, []⟩

/-- The domain of the `opPrecedence` map. -/
def opChars : List Char := ['=', '!', '<', '>', '+', '-', '*']

/-- Whether a byte list contains the two-byte window `*/`. -/
def hasClose : List UInt8 → Bool
  | a :: b :: rest => (a == 42 && b == 47) || hasClose (b :: rest)
  | _ => false

/-- The token number of a `parseToken` outcome. -/
def tokenOf (r : Option (Lexer × Int)) : Option Int :=
  r.map (fun p => p.2)

/-! ## Helper lemmas -/

lemma lookupVar_mapSet_self (m : List (String × Value)) (k : String) (v : Value) :
    lookupVar (mapSet m k v) k = some v := by
  induction m with
  | nil => simp [mapSet, lookupVar, List.find?]
  | cons p rest ih =>
    obtain ⟨k', v'⟩ := p
    by_cases h : k' = k
    · simp [mapSet, h, lookupVar, List.find?]
    · simpa [mapSet, h, lookupVar, List.find?] using ih

lemma skipWhitespace_not_space (c : UInt8) (r : Reader) (hc : isSpace c = false) :
    skipWhitespace c r = (some c, r) := by
  rw [skipWhitespace.eq_def, if_neg (by simp [hc])]

lemma skipWhitespace_through (pre : List UInt8) (c : UInt8) (rest : Reader)
    (hpre : ∀ b ∈ pre, isSpace b = true) (hc : isSpace c = false) (c0 : UInt8)
    (hc0 : isSpace c0 = true) :
    skipWhitespace c0 (pre ++ c :: rest) = (some c, rest) := by
  induction pre generalizing c0 with
  | nil =>
    rw [List.nil_append, skipWhitespace.eq_def, if_pos hc0]
    exact skipWhitespace_not_space c rest hc
  | cons p ps ih =>
    rw [List.cons_append, skipWhitespace.eq_def, if_pos hc0]
    exact ih (fun b hb => hpre b (List.mem_cons_of_mem _ hb)) p (hpre p (List.mem_cons_self _ _))

lemma commentScan_noClose (body : List UInt8) (h : hasClose body = false) :
    (commentScan body).1 = false := by
  induction body with
  | nil => simp [commentScan]
  | cons a t ih =>
    cases t with
    | nil => simp [commentScan]
    | cons b rest =>
      rw [hasClose] at h
      rw [Bool.or_eq_false_iff] at h
      rw [commentScan, if_neg (by simp [h.1])]
      exact ih h.2

lemma skipCAW_unterminated (c0 : UInt8) (mid : Reader) (body : List UInt8)
    (h : skipWhitespace c0 mid = (some 47, 42 :: body)) (hbody : hasClose body = false) :
    skipCommentsAndWhitespace c0 mid = (none, (commentScan body).2) := by
  rw [skipCommentsAndWhitespace, h]
  have hfalse : commentScan body = (false, (commentScan body).2) := by
    have := commentScan_noClose body hbody
    exact Prod.ext this rfl
  simp only [peekN, List.take]
  rw [hfalse]
  simp

lemma skipCAW_lastByte (c0 : UInt8) (mid : Reader) (b : UInt8)
    (h : skipWhitespace c0 mid = (some b, [])) :
    skipCommentsAndWhitespace c0 mid = (some 0, []) := by
  rw [skipCommentsAndWhitespace, h]
  rfl

/-! ## Claims about the tokenizer -/

/-- Claim C8 (amended): for every input whose next token starts an
unterminated block comment (optionally after whitespace, `/*` and then a
byte sequence never containing the two-byte window `*/`), `parseToken`
yields the end-of-input token `TokEOF`, not an error and not any other
token.  (The original claim's further clause that reaching end-of-stream
at any point yields `TokEOF` is refuted by `c8_counterexample`.) -/
theorem c8_unterminated_comment_eof (str : String) (num : Rat) (pre body : List UInt8)
    (hpre : ∀ b ∈ pre, isSpace b = true) (hbody : hasClose body = false) :
    tokenOf (parseToken ⟨str, num, pre ++ 47 :: 42 :: body⟩) = some TokEOF := by
  cases pre with
  | nil =>
    have hskip : skipWhitespace (47 : UInt8) (42 :: body) = (some 47, 42 :: body) :=
      skipWhitespace_not_space _ _ (by decide)
    have hcaw := skipCAW_unterminated 47 (42 :: body) body hskip hbody
    simp only [List.nil_append, parseToken]
    rw [hcaw]
    rfl
  | cons p ps =>
    have hskip : skipWhitespace p (ps ++ 47 :: 42 :: body) = (some 47, 42 :: body) :=
      skipWhitespace_through ps 47 (42 :: body)
        (fun b hb => hpre b (List.mem_cons_of_mem _ hb)) (by decide)
        p (hpre p (List.mem_cons_self _ _))
    have hcaw := skipCAW_unterminated p (ps ++ 47 :: 42 :: body) body hskip hbody
    simp only [List.cons_append, parseToken]
    rw [hcaw]
    rfl

/-- Claim C8, witness for the amended theorem: the input `"/*abc"` (an
unterminated comment) tokenizes to the end-of-input token. -/
theorem c8_witness :
    tokenOf (parseToken ⟨"", 0, [47, 42, 97, 98, 99]⟩) = some TokEOF :=
  c8_unterminated_comment_eof "" 0 [] [97, 98, 99]
    (fun b hb => absurd hb (List.not_mem_nil b)) (by decide)

/-- Claim C8, counterexample to the clause "reaching end-of-stream at any
point yields an end-of-input token": on the one-byte input `"a"`,
end-of-stream is reached right after the byte is read, yet `parseToken`
returns the NUL pseudo-token `0`, not `TokEOF = -99`. -/
theorem c8_counterexample :
    parseToken ⟨"", 0, [97]⟩ = some (⟨"", 0, []⟩, 0) ∧ (0 : Int) ≠ TokEOF := by
  exact ⟨rfl, by decide⟩

/-- Claim C10: for every input whose final byte is a non-whitespace
character with nothing after it (so the one-byte raw lookahead after
whitespace skipping is empty), `parseToken` does not classify that final
character: it returns the token with value `0` (a NUL pseudo-token),
which is not the end-of-input token `TokEOF`. -/
theorem c10_nul_token_on_last_byte (str : String) (num : Rat) (pre : List UInt8) (b : UInt8)
    (hpre : ∀ x ∈ pre, isSpace x = true) (hb : isSpace b = false) :
    parseToken ⟨str, num, pre ++ [b]⟩ = some (⟨str, num, []⟩, 0) ∧ (0 : Int) ≠ TokEOF := by
  refine ⟨?_, by decide⟩
  cases pre with
  | nil =>
    have hcaw := skipCAW_lastByte b [] b (skipWhitespace_not_space _ _ hb)
    simp only [List.nil_append, parseToken]
    rw [hcaw]
    rfl
  | cons p ps =>
    have hskip : skipWhitespace p (ps ++ [b]) = (some b, []) :=
      skipWhitespace_through ps b [] (fun x hx => hpre x (List.mem_cons_of_mem _ hx)) hb
        p (hpre p (List.mem_cons_self _ _))
    have hcaw := skipCAW_lastByte p (ps ++ [b]) b hskip
    simp only [List.cons_append, parseToken]
    rw [hcaw]
    rfl

/-- Claim C10, witness: the one-byte input `"x"` yields the NUL
pseudo-token. -/
theorem c10_witness :
    parseToken ⟨"", 0, [120]⟩ = some (⟨"", 0, []⟩, 0) ∧ (0 : Int) ≠ TokEOF :=
  c10_nul_token_on_last_byte "" 0 [] 120
    (fun x hx => absurd hx (List.not_mem_nil x)) (by decide)

/-! ## Claims about the parser -/

/-- Claim C1: binary-expression parsing follows the static precedence
table (`=`/`!` at 0, `<`/`>` at 10, `+`/`-` at 20, `*` at 40) with left
associativity: `2 + 3 * 4` parses as `2 + (3 * 4)`, `2 * 3 + 4` parses as
`(2 * 3) + 4`, `2 - 3 - 4` parses as `(2 - 3) - 4`, and in general for
any two operators of the table, `2 a 3 b 4` associates the second
operator into the right-hand side exactly when it binds strictly
tighter, and to the left otherwise. -/
theorem c1_precedence_and_left_assoc :
    (opPrecedence '=' = some 0 ∧ opPrecedence '!' = some 0 ∧
     opPrecedence '<' = some 10 ∧ opPrecedence '>' = some 10 ∧
     opPrecedence '+' = some 20 ∧ opPrecedence '-' = some 20 ∧
     opPrecedence '*' = some 40) ∧
    parseExpression 20 (mkPState [numTok 2, chTok '+', numTok 3, chTok '*', numTok 4]) =
      .ok (.binary (.number 2) '+' (.binary (.number 3) '*' (.number 4)), eofPState) ∧
    parseExpression 20 (mkPState [numTok 2, chTok '*', numTok 3, chTok '+', numTok 4]) =
      .ok (.binary (.binary (.number 2) '*' (.number 3)) '+' (.number 4), eofPState) ∧
    parseExpression 20 (mkPState [numTok 2, chTok '-', numTok 3, chTok '-', numTok 4]) =
      .ok (.binary (.binary (.number 2) '-' (.number 3)) '-' (.number 4), eofPState) ∧
    (∀ a ∈ opChars, ∀ b ∈ opChars,
      parseExpression 20 (mkPState [numTok 2, chTok a, numTok 3, chTok b, numTok 4]) =
        .ok (if GetPrecedence a < GetPrecedence b then
               .binary (.number 2) a (.binary (.number 3) b (.number 4))
             else
               .binary (.binary (.number 2) a (.number 3)) b (.number 4),
             eofPState)) := by
  refine ⟨⟨rfl, rfl, rfl, rfl, rfl, rfl, rfl⟩, rfl, rfl, rfl, ?_⟩
  intro a ha b hb
  fin_cases ha <;> fin_cases hb <;> rfl

/-- Claim C1, witness: the general operator-pair statement instantiated
at `+` and `*`. -/
theorem c1_witness :
    parseExpression 20 (mkPState [numTok 2, chTok '+', numTok 3, chTok '*', numTok 4]) =
      .ok (if GetPrecedence '+' < GetPrecedence '*' then
             .binary (.number 2) '+' (.binary (.number 3) '*' (.number 4))
           else
             .binary (.binary (.number 2) '+' (.number 3)) '*' (.number 4),
           eofPState) :=
  c1_precedence_and_left_assoc.2.2.2.2 '+' (by decide) '*' (by decide)

/-! ## Claims about the code generator's variable handling -/

/-- Claim C3: `setVar` at global/constant scope (`block == nil`) with a
non-constant value fails with "is not equal to constant expression", and
the failure is raised only after the name-to-value binding has been
recorded in the global table, so the non-constant value remains bound. -/
theorem c3_global_nonconstant_bound_then_error (s : GenState) (name : String) (v : Value)
    (h : isConstant v = false) :
    setVar s none name v =
      ({ s with globals := mapSet s.globals name v },
       .error (name ++ " is not equal to constant expression")) ∧
    lookupVar (mapSet s.globals name v) name = some v := by
  refine ⟨?_, lookupVar_mapSet_self s.globals name v⟩
  simp [setVar, h]

/-- Claim C3, witness: binding the non-constant value (an instruction
result) to `x` at global scope records the binding and then fails. -/
theorem c3_witness :
    setVar initState none "x" (.instr 0 .double) =
      ({ initState with globals := mapSet initState.globals "x" (.instr 0 .double) },
       .error ("x" ++ " is not equal to constant expression")) ∧
    lookupVar (mapSet initState.globals "x" (.instr 0 .double)) "x" = some (.instr 0 .double) :=
  c3_global_nonconstant_bound_then_error initState "x" (.instr 0 .double) rfl

/-- Claim C4: `setVar` inside a function (some block) for a name with no
local storage slot that is bound at global scope rejects the write with
"cannot write to constant variable" (and the state is untouched). -/
theorem c4_write_to_global_rejected (s : GenState) (bn name : String) (v : Value)
    (h1 : lookupVar s.locals name = none) (h2 : ∃ g, lookupVar s.globals name = some g) :
    setVar s (some bn) name v = (s, .error ("cannot write to constant variable: " ++ name)) := by
  obtain ⟨g, hg⟩ := h2
  simp [setVar, h1, hg]

/-- Claim C4, witness: after `const x = 5.0;`, a `set x = 6.0;` inside a
function (entry block, no local `x`) fails with the
"cannot write to constant variable" error. -/
theorem c4_witness :
    setVar { initState with globals := [("x", .constFloat 5)] } (some "entry") "x" (.constFloat 6) =
      ({ initState with globals := [("x", .constFloat 5)] },
       .error ("cannot write to constant variable: " ++ "x")) :=
  c4_write_to_global_rejected { initState with globals := [("x", .constFloat 5)] }
    "entry" "x" (.constFloat 6) rfl ⟨.constFloat 5, rfl⟩

/-- Claim C5, counterexample: at global/constant scope (`block == nil`)
`retrieveVar` of an absent name does NOT fail with
"could not identify var" — it returns the `nil` map zero value with a
`nil` error (an `ok` outcome, not the claimed error). -/
theorem c5_counterexample :
    retrieveVar initState none "x" = (initState, .ok .nilValue) ∧
    (Except.ok Value.nilValue ≠
      (Except.error ("could not identify var: " ++ "x") : Except String Value)) :=
  ⟨rfl, by simp⟩

/-- Claim C5 (amended): at global/constant scope `retrieveVar` returns
the global binding when present and the `nil` value with no error when
absent; the "could not identify var" failure occurs only inside a
function, when the name is bound in neither the local nor the global
table. -/
theorem c5_retrieveVar_scopes (s : GenState) (name : String) :
    (∀ v, lookupVar s.globals name = some v → retrieveVar s none name = (s, .ok v)) ∧
    (lookupVar s.globals name = none → retrieveVar s none name = (s, .ok .nilValue)) ∧
    (∀ bn, lookupVar s.locals name = none → lookupVar s.globals name = none →
      retrieveVar s (some bn) name = (s, .error ("could not identify var: " ++ name))) := by
  refine ⟨fun v hv => ?_, fun hn => ?_, fun bn hl hg => ?_⟩
  · simp [retrieveVar, hv]
  · simp [retrieveVar, hn]
  · simp [retrieveVar, hl, hg]

/-- Claim C5, witness for the amended theorem: a present global binding
is returned as-is at global scope. -/
theorem c5_witness :
    retrieveVar { initState with globals := [("y", .constFloat 5)] } none "y" =
      ({ initState with globals := [("y", .constFloat 5)] }, .ok (.constFloat 5)) :=
  (c5_retrieveVar_scopes { initState with globals := [("y", .constFloat 5)] } "y").1
    (.constFloat 5) rfl

/-! ## Claims about binary-expression type checking -/

/-- Claim C6: a binary expression whose operands lower to IR values of
unequal computed types fails with "types in binary expression must match"
and emits no instruction of its own (the state is returned untouched);
concretely, a String-returning call added to a numeric literal fails that
way, the block receiving only the call instruction emitted for the
operand.  (The non-nil hypotheses exclude Go `nil` values, on which
`getType` would panic rather than return.) -/
theorem c6_binary_type_mismatch :
    (∀ (s : GenState) (bn : String) (op : Char) (l r : Value),
      l ≠ .nilValue → r ≠ .nilValue → getType l ≠ getType r →
      binOpGen s bn op l r = (s, .error "types in binary expression must match")) ∧
    exprCodeGen 20 (.binary (.call "getS" []) '+' (.number 1)) (some "entry") scenarioEState =
      ({ funcs := [{ name := "getS", params := [], retType := .ptr .i8, blocks := [] },
                   { name := "main", params := [], retType := .double,
                     blocks := [{ name := "entry",
                                  insts := [.callInst 0 "getS" []], term := none }] }],
         globals := [], locals := [], currentFunc := "main", nextId := 1 },
       .error "types in binary expression must match") := by
  refine ⟨fun s bn op l r hl hr h => ?_, rfl⟩
  simp [binOpGen, h]

/-- Claim C6, witness: a String-typed value (pointer to pointer to i8)
and a Double constant mismatch. -/
theorem c6_witness :
    binOpGen initState "entry" '+' (.instr 0 (.ptr (.ptr .i8))) (.constFloat 1) =
      (initState, .error "types in binary expression must match") :=
  c6_binary_type_mismatch.1 initState "entry" '+' (.instr 0 (.ptr (.ptr .i8))) (.constFloat 1)
    (by decide) (by decide) (by decide)

/-- Claim C7: every binary operator applied to two operands of computed
type String fails, and the failure message is the Double-labelled
"unsupported operator for double: " followed by the operator. -/
theorem c7_string_operands_unsupported (s : GenState) (bn : String) (op : Char) (l r : Value)
    (hl : getType l = .String) (hr : getType r = .String) :
    binOpGen s bn op l r =
      (s, .error ("unsupported operator for double: " ++ String.singleton op)) := by
  simp [binOpGen, hl, hr, handleStringOps]

/-- Claim C7, witness: `+` on two String-typed values fails with the
Double-labelled message. -/
theorem c7_witness :
    binOpGen initState "entry" '+' (.instr 0 (.ptr (.ptr .i8))) (.instr 1 (.ptr (.ptr .i8))) =
      (initState, .error ("unsupported operator for double: " ++ String.singleton '+')) :=
  c7_string_operands_unsupported initState "entry" '+'
    (.instr 0 (.ptr (.ptr .i8))) (.instr 1 (.ptr (.ptr .i8))) rfl rfl

/-! ## Evaluation lemmas for whole-function lowering

Whole-function lowerings are evaluated stepwise: each statement's
`stmtCodeGen` run is checked from an explicit literal state, and the runs
are chained with the two lemmas below, which merely restate one
unfolding step of `genStatements` and of `FunctionAST.CodeGen`. -/

instance {e a : Type} [DecidableEq e] [DecidableEq a] : DecidableEq (Except e a) := fun x y =>
  match x, y with
  | .ok v, .ok w => if h : v = w then isTrue (by rw [h]) else isFalse (by simp [h])
  | .error v, .error w => if h : v = w then isTrue (by rw [h]) else isFalse (by simp [h])
  | .ok _, .error _ => isFalse (by simp)
  | .error _, .ok _ => isFalse (by simp)

/-- The block `genStatements` continues with after one statement. -/
def nextBlockName (res : GenResult) (bn : String) : String :=
  match res with
  | .blockRef b => b
  | _ => bn

lemma genStatements_cons_ok (fuel : Nat) (st : StmtAST) (rest : List StmtAST) (bn : String)
    (s s2 : GenState) (res : GenResult)
    (h : stmtCodeGen fuel st (some bn) s = (s2, .ok res)) :
    genStatements (fuel + 1) (st :: rest) bn s =
      genStatements fuel rest (nextBlockName res bn) s2 := by
  have hu : ∀ p : GenState × Except String GenResult,
      stmtCodeGen fuel st (some bn) s = p →
      genStatements (fuel + 1) (st :: rest) bn s =
        (match p with
         | (s3, .error e) => (s3, .error e)
         | (s3, .ok r) =>
           genStatements fuel rest (nextBlockName r bn) s3) := by
    intro p hp
    rw [← hp]
    rfl
  exact hu (s2, .ok res) h

lemma functionCodeGen_via (fuel : Nat) (f : FunctionAST) (s sp sb s2 : GenState)
    (theFunc : Func) (cb : String)
    (h0 : (match getFunc s.funcs f.prototype.funcName with
           | some fn => (s, fn)
           | none => prototypeCodeGen f.prototype s) = (sp, theFunc))
    (h1 : bindParams theFunc.params theFunc.name
            { addBlockToFunc sp theFunc.name { name := "entry", insts := [], term := none } with
              locals := [], currentFunc := theFunc.name } = (sb, Except.ok ()))
    (h2 : genStatements fuel f.body "entry" sb = (s2, .ok cb)) :
    functionCodeGen fuel f s =
      (if getBlockTerm s2 cb = none then
         if f.prototype.returnType ≠ Ty.Void then
           (s2, .error ("non-void function: " ++ f.prototype.funcName ++ " needs return"))
         else (setTerm s2 cb (.ret none), .ok (.funcRef theFunc.name))
       else (s2, .ok (.funcRef theFunc.name))) := by
  unfold functionCodeGen
  rw [h0]
  simp only []
  rw [h1]
  simp only []
  rw [h2]

/-- One unfolding step of the `IfAST.CodeGen` branch with a present else
body, stated with every intermediate result as a hypothesis (`h6` and
`h9` are the possible appends of the branch-to-merge-block jump). -/
lemma stmtCodeGen_ifElse_via (fuel : Nat) (cond : ExprAST) (ifBody ebody : List StmtAST)
    (bn : String) (s sA sB sC sD sE sE2 sF sG sG2 : GenState)
    (ifB afterB elseB ifCur elseCur : String) (condVal0 condVal : Value)
    (h1 : newBlock s bn "if-true-block" = (ifB, sA))
    (h2 : newBlock sA bn "if-after-block" = (afterB, sB))
    (h3 : exprCodeGen fuel cond (some bn) sB = (sC, .ok condVal0))
    (h4 : emit sC bn (fun id => .fcmp id .ogt condVal0 (.constFloat 0)) .i1 = (condVal, sD))
    (h5 : genStatements fuel ifBody ifB sD = (sE, .ok ifCur))
    (h6 : (if getBlockTerm sE ifCur = none then setTerm sE ifCur (.br afterB) else sE) = sE2)
    (h7 : newBlock sE2 bn "if-false-block" = (elseB, sF))
    (h8 : genStatements fuel ebody elseB sF = (sG, .ok elseCur))
    (h9 : (if getBlockTerm sG elseCur = none then setTerm sG elseCur (.br afterB) else sG) = sG2) :
    stmtCodeGen (fuel + 1) (.ifStmt cond ifBody (some ebody)) (some bn) s =
      (setTerm sG2 bn (.condbr condVal ifB elseB), .ok (.blockRef afterB)) := by
  simp only [stmtCodeGen]
  rw [h1]
  simp only []
  rw [h2]
  simp only []
  rw [h3]
  simp only []
  rw [h4]
  simp only []
  rw [h5]
  simp only []
  rw [h6, h7]
  simp only []
  rw [h8]
  simp only []
  rw [h9]

/-! ## Intermediate states of the two whole-function lowerings -/

/-- The `cmp` IR function right after `Prototype.CodeGen`. -/
def cmpFunc : Func :=
  { name := "cmp", params := [("a", .double), ("b", .double)], retType := .double, blocks := [] }

/-- Module state right after `cmp`'s prototype is emitted. -/
def c2sp : GenState :=
  { funcs := [cmpFunc], globals := [], locals := [], currentFunc := "", nextId := 0 }

/-- A state during the lowering of `cmp`'s body: the module's one
function with the given blocks, both parameters bound to slots. -/
def cmpState (blocks : List Block) (nid : Nat) : GenState :=
  { funcs := [{ cmpFunc with blocks := blocks }],
    globals := [],
    locals := [("a", .instr 0 (.ptr .double)), ("b", .instr 1 (.ptr .double))],
    currentFunc := "cmp", nextId := nid }

/-- Entry-block instructions after parameter binding. -/
def c2entry0 : List Instr :=
  [.alloca 0 .double, .store (.param "cmp" "a" .double) (.instr 0 (.ptr .double)),
   .alloca 1 .double, .store (.param "cmp" "b" .double) (.instr 1 (.ptr .double))]

/-- Entry-block instructions after the condition `a > b` is lowered. -/
def c2entry1 : List Instr :=
  c2entry0 ++ [.load 2 .double (.instr 0 (.ptr .double)), .load 3 .double (.instr 1 (.ptr .double)),
    .fcmp 4 .ogt (.instr 2 .double) (.instr 3 .double), .uitofp 5 (.instr 4 .i1) .double]

/-- Entry-block instructions after the greater-than-zero comparison. -/
def c2entry2 : List Instr :=
  c2entry1 ++ [.fcmp 6 .ogt (.instr 5 .double) (.constFloat 0)]

/-- The lowered then block (`return a;`). -/
def c2thenBlock : Block :=
  { name := "if-true-block_40ff2fbd",
    insts := [.load 7 .double (.instr 0 (.ptr .double))],
    term := some (.ret (some (.instr 7 .double))) }

/-- The lowered else block (`return b;`). -/
def c2elseBlock : Block :=
  { name := "if-false-block_fc6b2644",
    insts := [.load 8 .double (.instr 1 (.ptr .double))],
    term := some (.ret (some (.instr 8 .double))) }

/-- State after the entry block is created and both parameters bound. -/
def c2s0 : GenState :=
  cmpState [{ name := "entry", insts := c2entry0, term := none }] 2

/-- State after the whole if/else statement: the entry block conditionally
branches to the then/else blocks, each ending in its own return, and the
merge (after) block is empty and unterminated. -/
def c2s1 : GenState :=
  cmpState
    [{ name := "entry", insts := c2entry2,
       term := some (.condbr (.instr 6 .i1) "if-true-block_40ff2fbd" "if-false-block_fc6b2644") },
     c2thenBlock,
     { name := "if-after-block_8b80f759", insts := [], term := none },
     c2elseBlock] 9

set_option maxRecDepth 400000 in
lemma c2_if_step :
    stmtCodeGen 99 (.ifStmt (.binary (.varRef "a") '>' (.varRef "b"))
        [.ret (.varRef "a")] (some [.ret (.varRef "b")])) (some "entry") c2s0 =
      (c2s1, .ok (.blockRef "if-after-block_8b80f759")) := by
  have h1 : newBlock c2s0 "entry" "if-true-block" =
      ("if-true-block_40ff2fbd",
       cmpState [{ name := "entry", insts := c2entry0, term := none },
                 { name := "if-true-block_40ff2fbd", insts := [], term := none }] 2) := by decide
  have h2 : newBlock
      (cmpState [{ name := "entry", insts := c2entry0, term := none },
                 { name := "if-true-block_40ff2fbd", insts := [], term := none }] 2)
      "entry" "if-after-block" =
      ("if-after-block_8b80f759",
       cmpState [{ name := "entry", insts := c2entry0, term := none },
                 { name := "if-true-block_40ff2fbd", insts := [], term := none },
                 { name := "if-after-block_8b80f759", insts := [], term := none }] 2) := by decide
  have h3 : exprCodeGen 98 (.binary (.varRef "a") '>' (.varRef "b")) (some "entry")
      (cmpState [{ name := "entry", insts := c2entry0, term := none },
                 { name := "if-true-block_40ff2fbd", insts := [], term := none },
                 { name := "if-after-block_8b80f759", insts := [], term := none }] 2) =
      (cmpState [{ name := "entry", insts := c2entry1, term := none },
                 { name := "if-true-block_40ff2fbd", insts := [], term := none },
                 { name := "if-after-block_8b80f759", insts := [], term := none }] 6,
       .ok (.instr 5 .double)) := by decide
  have h4 : emit
      (cmpState [{ name := "entry", insts := c2entry1, term := none },
                 { name := "if-true-block_40ff2fbd", insts := [], term := none },
                 { name := "if-after-block_8b80f759", insts := [], term := none }] 6)
      "entry" (fun id => .fcmp id .ogt (Value.instr 5 .double) (.constFloat 0)) .i1 =
      (.instr 6 .i1,
       cmpState [{ name := "entry", insts := c2entry2, term := none },
                 { name := "if-true-block_40ff2fbd", insts := [], term := none },
                 { name := "if-after-block_8b80f759", insts := [], term := none }] 7) := by decide
  have h5 : genStatements 98 [.ret (.varRef "a")] "if-true-block_40ff2fbd"
      (cmpState [{ name := "entry", insts := c2entry2, term := none },
                 { name := "if-true-block_40ff2fbd", insts := [], term := none },
                 { name := "if-after-block_8b80f759", insts := [], term := none }] 7) =
      (cmpState [{ name := "entry", insts := c2entry2, term := none },
                 c2thenBlock,
                 { name := "if-after-block_8b80f759", insts := [], term := none }] 8,
       .ok "if-true-block_40ff2fbd") := by decide
  have h6 : (if getBlockTerm
        (cmpState [{ name := "entry", insts := c2entry2, term := none },
                   c2thenBlock,
                   { name := "if-after-block_8b80f759", insts := [], term := none }] 8)
        "if-true-block_40ff2fbd" = none then
      setTerm (cmpState [{ name := "entry", insts := c2entry2, term := none },
                   c2thenBlock,
                   { name := "if-after-block_8b80f759", insts := [], term := none }] 8)
        "if-true-block_40ff2fbd" (.br "if-after-block_8b80f759")
      else (cmpState [{ name := "entry", insts := c2entry2, term := none },
                   c2thenBlock,
                   { name := "if-after-block_8b80f759", insts := [], term := none }] 8)) =
      cmpState [{ name := "entry", insts := c2entry2, term := none },
                c2thenBlock,
                { name := "if-after-block_8b80f759", insts := [], term := none }] 8 := by decide
  have h7 : newBlock
      (cmpState [{ name := "entry", insts := c2entry2, term := none },
                 c2thenBlock,
                 { name := "if-after-block_8b80f759", insts := [], term := none }] 8)
      "entry" "if-false-block" =
      ("if-false-block_fc6b2644",
       cmpState [{ name := "entry", insts := c2entry2, term := none },
                 c2thenBlock,
                 { name := "if-after-block_8b80f759", insts := [], term := none },
                 { name := "if-false-block_fc6b2644", insts := [], term := none }] 8) := by decide
  have h8 : genStatements 98 [.ret (.varRef "b")] "if-false-block_fc6b2644"
      (cmpState [{ name := "entry", insts := c2entry2, term := none },
                 c2thenBlock,
                 { name := "if-after-block_8b80f759", insts := [], term := none },
                 { name := "if-false-block_fc6b2644", insts := [], term := none }] 8) =
      (cmpState [{ name := "entry", insts := c2entry2, term := none },
                 c2thenBlock,
                 { name := "if-after-block_8b80f759", insts := [], term := none },
                 c2elseBlock] 9,
       .ok "if-false-block_fc6b2644") := by decide
  have h9 : (if getBlockTerm
        (cmpState [{ name := "entry", insts := c2entry2, term := none },
                   c2thenBlock,
                   { name := "if-after-block_8b80f759", insts := [], term := none },
                   c2elseBlock] 9)
        "if-false-block_fc6b2644" = none then
      setTerm (cmpState [{ name := "entry", insts := c2entry2, term := none },
                   c2thenBlock,
                   { name := "if-after-block_8b80f759", insts := [], term := none },
                   c2elseBlock] 9)
        "if-false-block_fc6b2644" (.br "if-after-block_8b80f759")
      else (cmpState [{ name := "entry", insts := c2entry2, term := none },
                   c2thenBlock,
                   { name := "if-after-block_8b80f759", insts := [], term := none },
                   c2elseBlock] 9)) =
      cmpState [{ name := "entry", insts := c2entry2, term := none },
                c2thenBlock,
                { name := "if-after-block_8b80f759", insts := [], term := none },
                c2elseBlock] 9 := by decide
  have hmain := stmtCodeGen_ifElse_via 98 (.binary (.varRef "a") '>' (.varRef "b"))
    [.ret (.varRef "a")] [.ret (.varRef "b")] "entry" c2s0 _ _ _ _ _ _ _ _ _
    "if-true-block_40ff2fbd" "if-after-block_8b80f759" "if-false-block_fc6b2644"
    "if-true-block_40ff2fbd" "if-false-block_fc6b2644"
    (.instr 5 .double) (.instr 6 .i1) h1 h2 h3 h4 h5 h6 h7 h8 h9
  refine hmain.trans ?_
  decide

lemma c2_genStatements :
    genStatements 100 cmpAST.body "entry" c2s0 = (c2s1, .ok "if-after-block_8b80f759") :=
  (genStatements_cons_ok 99 _ [] "entry" c2s0 c2s1
    (.blockRef "if-after-block_8b80f759") c2_if_step).trans rfl

set_option maxRecDepth 400000 in
lemma c2main : c2result = (c2s1, .error "non-void function: cmp needs return") := by
  show functionCodeGen 100 cmpAST initState = _
  have h0 : (match getFunc initState.funcs cmpAST.prototype.funcName with
             | some fn => (initState, fn)
             | none => prototypeCodeGen cmpAST.prototype initState) = (c2sp, cmpFunc) := by
    decide
  have h1 : bindParams cmpFunc.params cmpFunc.name
      { addBlockToFunc c2sp cmpFunc.name { name := "entry", insts := [], term := none } with
        locals := [], currentFunc := cmpFunc.name } = (c2s0, Except.ok ()) := by
    decide
  rw [functionCodeGen_via 100 cmpAST initState c2sp c2s0 c2s1 cmpFunc
    "if-after-block_8b80f759" h0 h1 c2_genStatements]
  decide

/-- The `loop` IR function right after `Prototype.CodeGen`. -/
def loopFunc : Func := { name := "loop", params := [], retType := .void, blocks := [] }

/-- Module state right after `loop`'s prototype is emitted. -/
def c9sp : GenState :=
  { funcs := [loopFunc], globals := [], locals := [], currentFunc := "", nextId := 0 }

/-- State of the `loop` lowering after the entry block is created
(no parameters to bind). -/
def c9s0 : GenState :=
  { funcs := [{ loopFunc with blocks := [{ name := "entry", insts := [], term := none }] }],
    globals := [], locals := [], currentFunc := "loop", nextId := 0 }

/-- State of the `loop` lowering after `set i = 0.0;`. -/
def c9s1 : GenState :=
  { funcs := [{ loopFunc with blocks :=
      [{ name := "entry",
         insts := [.alloca 0 .double, .store (.constFloat 0) (.instr 0 (.ptr .double))],
         term := none }] }],
    globals := [], locals := [("i", .instr 0 (.ptr .double))],
    currentFunc := "loop", nextId := 1 }

/-- State of the `loop` lowering after the while statement: test, loop
body and after blocks; the entry branches to test, the test block
evaluates `i < 10`, compares it greater-than-zero and conditionally
branches to loop/after, and the loop body branches back to test. -/
def c9s2 : GenState :=
  { funcs := [{ loopFunc with blocks :=
      [{ name := "entry",
         insts := [.alloca 0 .double, .store (.constFloat 0) (.instr 0 (.ptr .double))],
         term := some (.br "while-test_0336a607") },
       { name := "while-test_0336a607",
         insts := [.load 1 .double (.instr 0 (.ptr .double)),
                   .fcmp 2 .olt (.instr 1 .double) (.constFloat 10),
                   .uitofp 3 (.instr 2 .i1) .double,
                   .fcmp 4 .ogt (.instr 3 .double) (.constFloat 0)],
         term := some (.condbr (.instr 4 .i1) "while-loop_0226d579" "while-after_5794f6fb") },
       { name := "while-loop_0226d579",
         insts := [.load 5 .double (.instr 0 (.ptr .double)),
                   .fadd 6 (.instr 5 .double) (.constFloat 1),
                   .store (.instr 6 .double) (.instr 0 (.ptr .double))],
         term := some (.br "while-test_0336a607") },
       { name := "while-after_5794f6fb", insts := [], term := none }] }],
    globals := [], locals := [("i", .instr 0 (.ptr .double))],
    currentFunc := "loop", nextId := 7 }

set_option maxRecDepth 400000 in
lemma c9_assign_step :
    stmtCodeGen 99 (.assign "i" (.number 0)) (some "entry") c9s0 = (c9s1, .ok .noneRes) := by
  decide

set_option maxRecDepth 400000 in
lemma c9_while_step :
    stmtCodeGen 98 (.whileStmt (.binary (.varRef "i") '<' (.number 10))
        [.assign "i" (.binary (.varRef "i") '+' (.number 1))]) (some "entry") c9s1 =
      (c9s2, .ok (.blockRef "while-after_5794f6fb")) := by
  decide

lemma c9_genStatements :
    genStatements 100 loopAST.body "entry" c9s0 = (c9s2, .ok "while-after_5794f6fb") := by
  have s1 := genStatements_cons_ok 99 (.assign "i" (.number 0))
    [.whileStmt (.binary (.varRef "i") '<' (.number 10))
      [.assign "i" (.binary (.varRef "i") '+' (.number 1))]]
    "entry" c9s0 c9s1 .noneRes c9_assign_step
  have s2 := genStatements_cons_ok 98 (.whileStmt (.binary (.varRef "i") '<' (.number 10))
      [.assign "i" (.binary (.varRef "i") '+' (.number 1))]) []
    "entry" c9s1 c9s2 (.blockRef "while-after_5794f6fb") c9_while_step
  exact (s1.trans s2).trans rfl

set_option maxRecDepth 400000 in
lemma c9main :
    c9result = (setTerm c9s2 "while-after_5794f6fb" (.ret none), .ok (.funcRef "loop")) := by
  show functionCodeGen 100 loopAST initState = _
  have h0 : (match getFunc initState.funcs loopAST.prototype.funcName with
             | some fn => (initState, fn)
             | none => prototypeCodeGen loopAST.prototype initState) = (c9sp, loopFunc) := by
    decide
  have h1 : bindParams loopFunc.params loopFunc.name
      { addBlockToFunc c9sp loopFunc.name { name := "entry", insts := [], term := none } with
        locals := [], currentFunc := loopFunc.name } = (c9s0, Except.ok ()) := by
    decide
  rw [functionCodeGen_via 100 loopAST initState c9sp c9s0 c9s2 loopFunc
    "while-after_5794f6fb" h0 h1 c9_genStatements]
  decide

/-! ## Claims about control-flow lowering -/

/-- Claim C2 (the code contradicts it): lowering
`def double cmp(double a, double b) { if a > b { return a; } else { return b; } }`
does NOT succeed.  The if statement does create the three synthetic
blocks (then/else/after), the entry block does conditionally branch to
then/else on `a > b`, and each of then and else ends in its own return —
but `IfAST.CodeGen` then hands the empty, unterminated after block to
`FunctionAST.CodeGen` as the current block, which rejects the non-void
function with "non-void function: cmp needs return". -/
theorem c2_cmp_lowering_fails :
    c2result.2 = .error "non-void function: cmp needs return" ∧
    (c2result.1.funcs.map fun f => (f.name, f.blocks.map fun b => (b.name, b.term))) =
      [("cmp",
        [("entry",
          some (.condbr (.instr 6 .i1) "if-true-block_40ff2fbd" "if-false-block_fc6b2644")),
         ("if-true-block_40ff2fbd", some (.ret (some (.instr 7 .double)))),
         ("if-after-block_8b80f759", none),
         ("if-false-block_fc6b2644", some (.ret (some (.instr 8 .double))))])] := by
  rw [c2main]
  exact ⟨rfl, rfl⟩

set_option maxRecDepth 400000 in
/-- Claim C9: lowering the while statement of
`def void loop() { set i = 0.0; while i < 10.0 { set i = i + 1.0; } }`
creates exactly three blocks (test, loop body, after): the entry block
ends with an unconditional branch to the test block; the test block
evaluates the condition (`load i`, `fcmp olt` against 10, promotion to
double), compares it greater-than-zero, and conditionally branches to
loop body or after; the loop body branches back to the test block; and
the void function's final (after) block receives the implicit empty
return. -/
theorem c9_while_lowering :
    c9result.2 = .ok (.funcRef "loop") ∧
    (c9result.1.funcs.map fun f => (f.name, f.blocks.map fun b => (b.name, b.term))) =
      [("loop",
        [("entry", some (.br "while-test_0336a607")),
         ("while-test_0336a607",
          some (.condbr (.instr 4 .i1) "while-loop_0226d579" "while-after_5794f6fb")),
         ("while-loop_0226d579", some (.br "while-test_0336a607")),
         ("while-after_5794f6fb", some (.ret none))])] ∧
    (getBlock c9result.1 "while-test_0336a607").map Block.insts =
      some [.load 1 .double (.instr 0 (.ptr .double)),
            .fcmp 2 .olt (.instr 1 .double) (.constFloat 10),
            .uitofp 3 (.instr 2 .i1) .double,
            .fcmp 4 .ogt (.instr 3 .double) (.constFloat 0)] := by
  rw [c9main]
  exact ⟨rfl, by decide, by decide⟩

end Kaleidoscope
